import Mathlib

/-!
# Verification of the dnora grid/forcing utilities

Shallow embedding of the array-manipulating code of the `dnora` repository
(grid filters in `src/grd/mod.py`, meshers in `src/dnora/grd/mesh.py`, the
`Forcing` container in `src/dnora/wnd/wnd_mod.py` and the forcing writers in
`src/dnora/wnd/write.py`), together with theorems settling the specification
claims about them.

Modelling conventions:
* numpy floating-point sample values are modelled by `FloatVal`: either `nan`
  or an exact numeric value (a rational; no rounding arises at the granularity
  of the claims, which involve only small decimal constants).
* numpy arrays are modelled by `List` values; elementwise operations become
  `List.map` / `List.zipWith`.  A 2-D array appears as a list of rows, a 3-D
  array as a list of 2-D arrays.
* Where a claim is about aliasing and in-place mutation, arrays are instead
  references (`Ref`) into an explicit allocation store (`Heap`); `copy(data)`
  allocates a fresh buffer and `arr[mask] = v` writes through the reference.
-/

/-- A numpy floating-point sample value: NaN or an exact number. -/
inductive FloatVal where
  | nan : FloatVal
  | num : ℚ → FloatVal
deriving DecidableEq, Repr

/-- Elementwise numpy comparison `d > c` with a numeric threshold: every
comparison against NaN yields `False`. -/
def fgtQ : FloatVal → ℚ → Bool
  | FloatVal.nan, _ => false
  | FloatVal.num q, c => decide (c < q)

/-- Elementwise numpy comparison `d <= c`: comparisons against NaN yield `False`. -/
def fleQ : FloatVal → ℚ → Bool
  | FloatVal.nan, _ => false
  | FloatVal.num q, c => decide (q ≤ c)

/-- Value of the numpy boolean-mask assignment `arr[mask] = v`: positions where
the mask is `true` receive `v`, the rest keep their entry of `arr`. -/
def maskedAssign (data : List FloatVal) (mask : List Bool) (v : FloatVal) : List FloatVal :=
  List.zipWith (fun d m => if m then v else d) data mask

/-- The value the masked-assignment line of `SetMinDepth.__call__`
(`src/grd/mod.py` lines 24-38) is written to compute for `new_data`:
`shallow_points = data > self.min_depth`; the points with
`np.logical_and(shallow_points, land_sea_mask)` are set to `self.to_land`
when `self.to_land >= 0` and to `self.min_depth` otherwise.  NOTE: this is
the *intended* value only — the module imports `abc`, `msg` and `copy` but
never numpy, so evaluating the subscript `np.logical_and(...)` raises
`NameError` on every call and the program never actually produces this
array; `setMinDepth_call_py` below embeds the executed behaviour. -/
def setMinDepthArr (min_depth to_land : ℚ) (data : List FloatVal)
    (land_sea_mask : List Bool) : List FloatVal :=
  let shallow_points := data.map (fun d => fgtQ d min_depth)
  if 0 ≤ to_land then
    maskedAssign data (List.zipWith (· && ·) shallow_points land_sea_mask)
      (FloatVal.num to_land)
  else
    maskedAssign data (List.zipWith (· && ·) shallow_points land_sea_mask)
      (FloatVal.num min_depth)

/-- A numpy buffer. -/
abbrev Buf := List FloatVal

/-- Allocation store: every live numpy array is a buffer in this list. -/
abbrev Heap := List Buf

/-- A reference to a buffer (its index in the allocation store). -/
abbrev Ref := Nat

/-- Dereference an array. -/
def readRef (h : Heap) (r : Ref) : Buf := h.getD r []

/-- Overwrite the buffer an array refers to (numpy in-place assignment). -/
def writeRef (h : Heap) (r : Ref) (b : Buf) : Heap := h.set r b

/-- Allocate a fresh buffer (`copy(...)`, `np.full(...)`, ...) and return a
reference to it. -/
def allocRef (h : Heap) (b : Buf) : Heap × Ref := (h ++ [b], h.length)

/-- `TrivialFilter.__call__` (`src/grd/mod.py` lines 16-17): `return copy(data)`.
`copy.copy` of a numpy array allocates a new buffer with the same contents. -/
def trivialFilter_call (h : Heap) (data : Ref) : Heap × Ref :=
  allocRef h (readRef h data)

/-- `SetMinDepth.__call__` with its allocations explicit: `new_data = copy(data)`
allocates a fresh buffer, and the masked assignment `new_data[...] = v` writes
through the fresh reference only.  Returns the final store and `new_data`.
This over-approximates the real write set: in the actual program the call
raises `NameError` at `np.logical_and` (numpy is never imported, see
`setMinDepth_call_py`) after the copy and before any store, so every write
the program could ever perform is contained in the completed write modelled
here — and all of it targets the fresh buffer, never the input. -/
def setMinDepth_call (min_depth to_land : ℚ) (h : Heap) (data : Ref)
    (land_sea_mask : List Bool) : Heap × Ref :=
  let d := readRef h data
  let p := allocRef h d
  (writeRef p.1 p.2 (setMinDepthArr min_depth to_land d land_sea_mask), p.2)

/-- A Python exception surfaced by the embedded code. -/
inductive PyErr where
  | nameError : String → PyErr
deriving DecidableEq, Repr

/-- `SetMinDepth.__call__` as the interpreter executes it (`src/grd/mod.py`
lines 24-38): line 25 evaluates `shallow_points = data > self.min_depth`
(an array method, no `np` name needed), the branch on `self.to_land >= 0`
and the `msg.info` calls run, and `new_data = copy(data)` allocates; then
both branches evaluate the subscript `np.logical_and(shallow_points,
land_sea_mask)` — but the module imports only `abc`, `msg` and `copy`, so
the name `np` is unbound and the call raises `NameError` unconditionally,
for every configuration and input, before returning anything. -/
def setMinDepth_call_py (min_depth to_land : ℚ) (h : Heap) (data : Ref)
    (land_sea_mask : List Bool) : Except PyErr (Heap × Ref) :=
  Except.error (PyErr.nameError "np")

/-! ## Index lemmas for the list embedding -/

theorem getD_map_lt {α β : Type} (f : α → β) (l : List α) (i : Nat)
    (hi : i < l.length) (da : α) (db : β) :
    (l.map f).getD i db = f (l.getD i da) := by
  rw [List.getD_eq_getElem (l.map f) db (by simpa using hi),
    List.getD_eq_getElem l da hi]
  simp

theorem getD_zipWith_lt {α β γ : Type} (f : α → β → γ) (xs : List α) (ys : List β)
    (i : Nat) (hi : i < xs.length) (hlen : ys.length = xs.length)
    (da : α) (db : β) (dc : γ) :
    (List.zipWith f xs ys).getD i dc = f (xs.getD i da) (ys.getD i db) := by
  have hz : i < (List.zipWith f xs ys).length := by
    simpa [List.length_zipWith, hlen] using hi
  rw [List.getD_eq_getElem _ dc hz, List.getD_eq_getElem xs da hi,
    List.getD_eq_getElem ys db (by omega), List.getElem_zipWith]

theorem getD_set_self_lt {α : Type} (l : List α) (j : Nat) (hj : j < l.length)
    (v d : α) : (l.set j v).getD j d = v := by
  rw [List.getD_eq_getElem _ d (by simpa using hj)]
  simp

theorem getD_set_ne_lt {α : Type} (l : List α) (i j : Nat) (hij : i ≠ j) (v d : α) :
    (l.set j v).getD i d = l.getD i d := by
  by_cases hi : i < l.length
  · rw [List.getD_eq_getElem _ d (by simpa using hi), List.getD_eq_getElem l d hi]
    exact List.getElem_set_ne (fun hji => hij hji.symm) _
  · rw [List.getD_eq_default _ d (by simpa using Nat.le_of_not_lt hi),
      List.getD_eq_default l d (Nat.le_of_not_lt hi)]

/-! ## C1: the SetMinDepth clamping rule -/

theorem setMinDepthArr_length (T L : ℚ) (data : List FloatVal) (mask : List Bool)
    (hlen : mask.length = data.length) :
    (setMinDepthArr T L data mask).length = data.length := by
  unfold setMinDepthArr maskedAssign
  by_cases hL : 0 ≤ L <;> simp [hL, List.length_zipWith, hlen]

theorem setMinDepthArr_getD (T L : ℚ) (data : List FloatVal) (mask : List Bool)
    (hlen : mask.length = data.length) (i : Nat) (hi : i < data.length) :
    (setMinDepthArr T L data mask).getD i FloatVal.nan =
      (if fgtQ (data.getD i FloatVal.nan) T && mask.getD i false then
        (if 0 ≤ L then FloatVal.num L else FloatVal.num T)
      else data.getD i FloatVal.nan) := by
  have hshallow : (data.map (fun d => fgtQ d T)).length = data.length := by simp
  have hcomb :
      (List.zipWith (· && ·) (data.map (fun d => fgtQ d T)) mask).getD i false =
        (fgtQ (data.getD i FloatVal.nan) T && mask.getD i false) := by
    rw [getD_zipWith_lt (· && ·) _ mask i (by simpa using hi)
      (by simpa using hlen) false false false]
    rw [getD_map_lt (fun d => fgtQ d T) data i hi FloatVal.nan false]
  have hcomblen :
      (List.zipWith (· && ·) (data.map (fun d => fgtQ d T)) mask).length =
        data.length := by
    simp [List.length_zipWith, hlen]
  unfold setMinDepthArr maskedAssign
  by_cases hL : 0 ≤ L
  · simp only [hL, if_true]
    rw [getD_zipWith_lt _ data _ i hi (by simpa using hcomblen)
      FloatVal.nan false FloatVal.nan, hcomb]
  · simp only [hL, if_false]
    rw [getD_zipWith_lt _ data _ i hi (by simpa using hcomblen)
      FloatVal.nan false FloatVal.nan, hcomb]

/-- C1 (code bug, evaluated at a failing input): the claim describes the
masked clamp that `SetMinDepth.__call__` is written to perform — and
`setMinDepthArr 5 (-1) [7, 3, 9] [sea, sea, land] = [5, 3, 9]` is exactly the
clamped array the claim prescribes for that input — but the executed call
(`setMinDepth_call_py`) raises `NameError: name 'np' is not defined` on this
(and every) input instead of returning it, because `src/grd/mod.py` never
imports numpy.  The general elementwise form of the intended value is
`setMinDepthArr_getD` above. -/
theorem C1_setMinDepth_raises :
    setMinDepth_call_py 5 (-1)
        [[FloatVal.num 7, FloatVal.num 3, FloatVal.num 9]] 0
        [true, true, false] = Except.error (PyErr.nameError "np") ∧
    setMinDepthArr 5 (-1) [FloatVal.num 7, FloatVal.num 3, FloatVal.num 9]
        [true, true, false] =
      [FloatVal.num 5, FloatVal.num 3, FloatVal.num 9] := by
  refine ⟨rfl, by decide⟩

/-! ## C4: the grid filters never mutate their input -/

/-- C4: `TrivialFilter.__call__` and `SetMinDepth.__call__` both return a newly
allocated array (a fresh reference, distinct from the input reference) and
leave the input buffer unchanged in every element; all writes go to the fresh
buffer, so the input is never mutated in place at any point of the call. -/
theorem C4_filters_never_mutate (h : Heap) (r : Nat) (hr : r < h.length)
    (mask : List Bool) (T L : ℚ) :
    readRef (trivialFilter_call h r).1 r = readRef h r ∧
    (trivialFilter_call h r).2 ≠ r ∧
    readRef (setMinDepth_call T L h r mask).1 r = readRef h r ∧
    (setMinDepth_call T L h r mask).2 ≠ r := by
  have hne : h.length ≠ r := by omega
  refine ⟨?_, ?_, ?_, ?_⟩
  · unfold trivialFilter_call allocRef readRef
    exact List.getD_append h [readRef h r] [] r hr
  · unfold trivialFilter_call allocRef
    simpa using hne
  · have hrne : r ≠ h.length := by omega
    unfold setMinDepth_call allocRef writeRef readRef
    rw [getD_set_ne_lt _ r h.length hrne _ []]
    exact List.getD_append h [readRef h r] [] r hr
  · unfold setMinDepth_call allocRef writeRef
    simpa using hne

/-- Witness for C4 at a concrete store: one live buffer `[2, 7]` at address 0. -/
theorem C4_filters_never_mutate_witness :
    ((0 : Nat) < ([[FloatVal.num 2, FloatVal.num 7]] : Heap).length) ∧
    (readRef (trivialFilter_call [[FloatVal.num 2, FloatVal.num 7]] 0).1 0 =
        readRef [[FloatVal.num 2, FloatVal.num 7]] 0 ∧
      (trivialFilter_call [[FloatVal.num 2, FloatVal.num 7]] 0).2 ≠ 0 ∧
      readRef (setMinDepth_call 5 (-1) [[FloatVal.num 2, FloatVal.num 7]] 0
          [true, true]).1 0 =
        readRef [[FloatVal.num 2, FloatVal.num 7]] 0 ∧
      (setMinDepth_call 5 (-1) [[FloatVal.num 2, FloatVal.num 7]] 0
          [true, true]).2 ≠ 0) := by
  refine ⟨by decide, ?_⟩
  exact C4_filters_never_mutate [[FloatVal.num 2, FloatVal.num 7]] 0 (by decide)
    [true, true] 5 (-1)

/-! ## The meshers of src/dnora/grd/mesh.py -/

/-- Elementwise effect of `data[np.logical_not(data > 0)] = 0` in
`Interpolate.__call__`: entries that are not strictly positive (including NaN,
which compares `False` against 0) become 0; strictly positive entries stay. -/
def clampPos (d : FloatVal) : FloatVal :=
  if fgtQ d 0 then d else FloatVal.num 0

/-- `Interpolate.__call__` (`src/dnora/grd/mesh.py` lines 52-59).  The clamp
`data[np.logical_not(data > 0)] = 0` writes through the caller's reference
(no copy is taken); then `M = np.column_stack((data, lon, lat))` and
`griddata(M[:,1:], M[:,0], (lonQ, latQ), method)` is returned.  The scipy
routine itself is an external collaborator and is abstracted as the function
argument `griddata`, receiving the sample points `M[:,1:]` and sample values
`M[:,0]`. -/
def interpolate_call
    (griddata : List (ℚ × ℚ) → List FloatVal → List (List ℚ) → List (List ℚ) →
      List (List FloatVal))
    (h : Heap) (data : Ref) (lon lat : List ℚ) (lonQ latQ : List (List ℚ)) :
    Heap × List (List FloatVal) :=
  let d2 := (readRef h data).map clampPos
  let h2 := writeRef h data d2
  let M := d2.zip (lon.zip lat)
  (h2, griddata (M.map Prod.snd) (M.map Prod.fst) lonQ latQ)

/-- `Constant.__call__` (`src/dnora/grd/mesh.py` lines 70-72):
`np.full(data.shape, self.val)` — an array with the shape of the 1-D input
sample array `data`, every element `self.val`; the target grid `lonQ`, `latQ`
is ignored. -/
def constant_call (val : ℚ) (data : List FloatVal) (lonQ latQ : List (List ℚ)) :
    List FloatVal :=
  data.map (fun _ => FloatVal.num val)

/-- A degenerate stand-in for scipy's griddata, used to instantiate witnesses. -/
def griddataNull : List (ℚ × ℚ) → List FloatVal → List (List ℚ) →
    List (List ℚ) → List (List FloatVal) :=
  fun _ _ _ _ => []

/-- Sample store for the Interpolate witnesses: one buffer `[3, -2, NaN]`. -/
def heapEx : Heap := [[FloatVal.num 3, FloatVal.num (-2), FloatVal.nan]]

/-- C3 (code bug): for value `v = 7`, a 3-point sample array and a 2×2 target
grid, the Constant mesher returns the flat 3-element array `[7, 7, 7]` — every
element does equal `v`, but the shape is that of the input sample array, not
the `(m, n) = (2, 2)` target grid demanded by the claim and by the
`Mesher.__call__` docstring (`np.full(data.shape, self.val)` uses `data.shape`
instead of the target-grid shape). -/
theorem C3_constant_mesher_wrong_shape :
    constant_call 7 [FloatVal.num 2, FloatVal.nan, FloatVal.num 5]
        [[0, 1], [0, 1]] [[0, 0], [1, 1]] =
      [FloatVal.num 7, FloatVal.num 7, FloatVal.num 7] ∧
    (constant_call 7 [FloatVal.num 2, FloatVal.nan, FloatVal.num 5]
        [[0, 1], [0, 1]] [[0, 0], [1, 1]]).length = 3 ∧
    ([[0, 1], [0, 1]] : List (List ℚ)).length *
      (([[0, 1], [0, 1]] : List (List ℚ)).getD 0 []).length = 4 := by
  exact ⟨rfl, rfl, rfl⟩

/-- C6: before the scattered-data interpolation runs, every non-positive or NaN
sample value is replaced by zero and every strictly positive sample value is
passed through unchanged: the value array handed to `griddata` is exactly the
clamped input array. -/
theorem C6_interpolate_clamps_values (griddata : List (ℚ × ℚ) → List FloatVal →
      List (List ℚ) → List (List ℚ) → List (List FloatVal))
    (h : Heap) (r : Nat) (lon lat : List ℚ) (lonQ latQ : List (List ℚ))
    (hlon : lon.length = (readRef h r).length)
    (hlat : lat.length = (readRef h r).length)
    (i : Nat) (hi : i < (readRef h r).length) :
    (interpolate_call griddata h r lon lat lonQ latQ).2 =
      griddata (lon.zip lat) ((readRef h r).map clampPos) lonQ latQ ∧
    (fgtQ ((readRef h r).getD i (FloatVal.num 0)) 0 = true →
      ((readRef h r).map clampPos).getD i (FloatVal.num 0) =
        (readRef h r).getD i (FloatVal.num 0)) ∧
    (fgtQ ((readRef h r).getD i (FloatVal.num 0)) 0 = false →
      ((readRef h r).map clampPos).getD i (FloatVal.num 0) = FloatVal.num 0) := by
  refine ⟨?_, ?_, ?_⟩
  · have hzlen : (lon.zip lat).length = ((readRef h r).map clampPos).length := by
      simp [List.length_zip, hlon, hlat]
    simp only [interpolate_call]
    rw [List.map_fst_zip _ _ (le_of_eq hzlen.symm),
      List.map_snd_zip _ _ (le_of_eq hzlen)]
  · intro hpos
    rw [getD_map_lt clampPos _ i hi (FloatVal.num 0) (FloatVal.num 0)]
    unfold clampPos
    rw [hpos]
    simp
  · intro hneg
    rw [getD_map_lt clampPos _ i hi (FloatVal.num 0) (FloatVal.num 0)]
    unfold clampPos
    rw [hneg]
    simp

/-- Witness for C6 at a concrete input: samples `[3, -2, NaN]`, index 1 (the
entry `-2`, which is clamped to zero). -/
theorem C6_interpolate_clamps_values_witness :
    (([1, 2, 3] : List ℚ).length = (readRef heapEx 0).length) ∧
    (([4, 5, 6] : List ℚ).length = (readRef heapEx 0).length) ∧
    ((1 : Nat) < (readRef heapEx 0).length) ∧
    ((interpolate_call griddataNull heapEx 0 [1, 2, 3] [4, 5, 6] [[0]] [[0]]).2 =
      griddataNull (List.zip [1, 2, 3] [4, 5, 6])
        ((readRef heapEx 0).map clampPos) [[0]] [[0]] ∧
    (fgtQ ((readRef heapEx 0).getD 1 (FloatVal.num 0)) 0 = true →
      ((readRef heapEx 0).map clampPos).getD 1 (FloatVal.num 0) =
        (readRef heapEx 0).getD 1 (FloatVal.num 0)) ∧
    (fgtQ ((readRef heapEx 0).getD 1 (FloatVal.num 0)) 0 = false →
      ((readRef heapEx 0).map clampPos).getD 1 (FloatVal.num 0) =
        FloatVal.num 0)) := by
  refine ⟨by decide, by decide, by decide, ?_⟩
  exact C6_interpolate_clamps_values griddataNull heapEx 0 [1, 2, 3] [4, 5, 6]
    [[0]] [[0]] (by decide) (by decide) 1 (by decide)

/-- C9: `Interpolate.__call__` mutates the caller's sample array in place —
after the call, every entry of the buffer passed in that was non-positive or
NaN equals zero, and the strictly positive entries keep their values (the
clamp is written through the input reference, no copy is taken). -/
theorem C9_interpolate_mutates_input (griddata : List (ℚ × ℚ) → List FloatVal →
      List (List ℚ) → List (List ℚ) → List (List FloatVal))
    (h : Heap) (r : Nat) (hr : r < h.length)
    (lon lat : List ℚ) (lonQ latQ : List (List ℚ))
    (i : Nat) (hi : i < (readRef h r).length) :
    (fgtQ ((readRef h r).getD i (FloatVal.num 0)) 0 = false →
      (readRef (interpolate_call griddata h r lon lat lonQ latQ).1 r).getD i
        (FloatVal.num 0) = FloatVal.num 0) ∧
    (fgtQ ((readRef h r).getD i (FloatVal.num 0)) 0 = true →
      (readRef (interpolate_call griddata h r lon lat lonQ latQ).1 r).getD i
        (FloatVal.num 0) = (readRef h r).getD i (FloatVal.num 0)) := by
  have hread : readRef (interpolate_call griddata h r lon lat lonQ latQ).1 r =
      (readRef h r).map clampPos := by
    unfold interpolate_call writeRef readRef
    exact getD_set_self_lt h r hr _ []
  constructor
  · intro hneg
    rw [hread, getD_map_lt clampPos _ i hi (FloatVal.num 0) (FloatVal.num 0)]
    unfold clampPos
    rw [hneg]
    simp
  · intro hpos
    rw [hread, getD_map_lt clampPos _ i hi (FloatVal.num 0) (FloatVal.num 0)]
    unfold clampPos
    rw [hpos]
    simp

/-- Witness for C9 at a concrete input: samples `[3, -2, NaN]`; after the call
the caller's buffer holds `0` at index 1. -/
theorem C9_interpolate_mutates_input_witness :
    ((0 : Nat) < heapEx.length) ∧
    ((1 : Nat) < (readRef heapEx 0).length) ∧
    ((fgtQ ((readRef heapEx 0).getD 1 (FloatVal.num 0)) 0 = false →
      (readRef (interpolate_call griddataNull heapEx 0 [1, 2, 3] [4, 5, 6]
          [[0]] [[0]]).1 0).getD 1 (FloatVal.num 0) = FloatVal.num 0) ∧
    (fgtQ ((readRef heapEx 0).getD 1 (FloatVal.num 0)) 0 = true →
      (readRef (interpolate_call griddataNull heapEx 0 [1, 2, 3] [4, 5, 6]
          [[0]] [[0]]).1 0).getD 1 (FloatVal.num 0) =
        (readRef heapEx 0).getD 1 (FloatVal.num 0))) := by
  refine ⟨by decide, by decide, ?_⟩
  exact C9_interpolate_mutates_input griddataNull heapEx 0 (by decide)
    [1, 2, 3] [4, 5, 6] [[0]] [[0]] 1 (by decide)

/-! ## The Forcing container of src/dnora/wnd/wnd_mod.py -/

/-- The xarray dataset held by a `Forcing` object: a `time` coordinate
(modelled as seconds since an epoch), wind components `u`, `v` as
`[time][lat][lon]` arrays, and the optional `lon`/`lat` coordinate vectors
(`hasattr(self.data, 'lon')` becomes `Option.isSome`). -/
structure WndData where
  time : List Nat
  u : List (List (List ℚ))
  v : List (List (List ℚ))
  lon : Option (List ℚ)
  lat : Option (List ℚ)
deriving DecidableEq, Repr

/-- Label test of xarray's `sel(time=slice(a, b))`: label-based slicing on a
monotonic index keeps the labels in `[a, b]`, inclusive at both ends. -/
def inRange (a b t : Nat) : Bool := decide (a ≤ t) && decide (t ≤ b)

/-- `self.data.sel(time=slice(a, b))`: keeps the time steps with label in
`[a, b]` together with the corresponding entries of every data variable. -/
def sel_time (ds : WndData) (a b : Nat) : WndData :=
  { ds with
    time := ds.time.filter (fun t => inRange a b t),
    u := (ds.time.zip ds.u).filterMap
      (fun p => if inRange a b p.1 then some p.2 else none),
    v := (ds.time.zip ds.v).filterMap
      (fun p => if inRange a b p.1 then some p.2 else none) }

/-- `Forcing.slice_data` (`src/dnora/wnd/wnd_mod.py` lines 173-186): a falsy
(omitted) start bound defaults to `self.time()[0]`, a falsy end bound to
`self.time()[-1]`, then `self.data.sel(time=slice(start_time, end_time))`. -/
def slice_data (ds : WndData) (start_time end_time : Option Nat) : WndData :=
  sel_time ds (start_time.getD (ds.time.headD 0))
    (end_time.getD (ds.time.getLastD 0))

/-- `Forcing.lon` (`src/dnora/wnd/wnd_mod.py` lines 137-144): the `lon`
coordinate when the dataset has one, `np.array([])` otherwise.  The numpy
`copy` is value-equal to the coordinate vector. -/
def forcing_lon (ds : WndData) : List ℚ :=
  match ds.lon with
  | some v => v
  | none => []

/-- `Forcing.lat` (`src/dnora/wnd/wnd_mod.py` lines 146-153): the `lat`
coordinate when the dataset has one, `np.array([])` otherwise. -/
def forcing_lat (ds : WndData) : List ℚ :=
  match ds.lat with
  | some v => v
  | none => []

theorem le_getLastD_of_forall :
    ∀ (l : List Nat) (a d : Nat), (∀ b ∈ l, a ≤ b) → a ≤ d → a ≤ l.getLastD d
  | [], _, _, _, had => had
  | b :: bs, a, _, hf, _ => by
    rw [List.getLastD_cons]
    exact le_getLastD_of_forall bs a b
      (fun c hc => hf c (List.mem_cons_of_mem b hc))
      (hf b (List.mem_cons_self b bs))

theorem sorted_headD_le {l : List Nat} (hs : l.Pairwise (· ≤ ·)) {t : Nat}
    (ht : t ∈ l) : l.headD 0 ≤ t := by
  cases l with
  | nil => cases ht
  | cons a as =>
    rcases List.mem_cons.mp ht with h | h
    · simp [h]
    · simpa using (List.pairwise_cons.mp hs).1 t h

theorem sorted_le_getLastD :
    ∀ (l : List Nat) (t d : Nat), l.Pairwise (· ≤ ·) → t ∈ l → t ≤ l.getLastD d
  | [], t, _, _, ht => absurd ht (List.not_mem_nil t)
  | a :: as, t, _, hs, ht => by
    rw [List.getLastD_cons]
    rcases List.mem_cons.mp ht with h | h
    · subst h
      exact le_getLastD_of_forall as t t (List.pairwise_cons.mp hs).1 le_rfl
    · exact sorted_le_getLastD as t a (List.pairwise_cons.mp hs).2 h

theorem filterMap_zip_eq_self {β : Type} (p : Nat → Bool) :
    ∀ (ts : List Nat) (us : List β), us.length = ts.length →
      (∀ t ∈ ts, p t = true) →
      (ts.zip us).filterMap (fun q => if p q.1 then some q.2 else none) = us
  | [], [], _, _ => rfl
  | [], _ :: _, hlen, _ => by simp at hlen
  | _ :: _, [], hlen, _ => by simp at hlen
  | t :: ts, u :: us, hlen, hall => by
    have hp := hall t (List.mem_cons_self t ts)
    simp only [List.zip_cons_cons, List.filterMap_cons, hp, if_true]
    rw [filterMap_zip_eq_self p ts us (by simpa using hlen)
      (fun x hx => hall x (List.mem_cons_of_mem t hx))]

/-- C8: for a forcing whose (non-empty, increasing) time series has one data
field per time step, `slice_data` keeps exactly the time steps between its
bounds, inclusively at both ends; an unspecified bound defaults to the
corresponding end of the series, and `slice_data` with no arguments returns
the entire dataset. -/
theorem C8_slice_data_inclusive_defaults (ds : WndData) (hne : ds.time ≠ [])
    (hsort : ds.time.Pairwise (· ≤ ·))
    (hu : ds.u.length = ds.time.length) (hv : ds.v.length = ds.time.length)
    (a b t : Nat) :
    slice_data ds none none = ds ∧
    (t ∈ (slice_data ds (some a) (some b)).time ↔
      t ∈ ds.time ∧ a ≤ t ∧ t ≤ b) ∧
    slice_data ds none (some b) = sel_time ds (ds.time.headD 0) b ∧
    slice_data ds (some a) none = sel_time ds a (ds.time.getLastD 0) := by
  refine ⟨?_, ?_, rfl, rfl⟩
  · have hall : ∀ x ∈ ds.time,
        inRange (ds.time.headD 0) (ds.time.getLastD 0) x = true := by
      intro x hx
      have h1 := sorted_headD_le hsort hx
      have h2 := sorted_le_getLastD ds.time x 0 hsort hx
      unfold inRange
      rw [decide_eq_true h1, decide_eq_true h2]
      rfl
    obtain ⟨tm, uu, vv, lo, la⟩ := ds
    simp only [slice_data, sel_time, Option.getD_none] at hall hu hv ⊢
    rw [List.filter_eq_self.mpr hall,
      filterMap_zip_eq_self _ tm uu (by simpa using hu) hall,
      filterMap_zip_eq_self _ tm vv (by simpa using hv) hall]
  · simp [slice_data, sel_time, List.mem_filter, inRange, and_assoc]

/-- Dataset used by the C8 witness: times `[1, 2, 3]` with one 1×1 field per
step. -/
def wndEx : WndData :=
  { time := [1, 2, 3]
    u := [[[10]], [[20]], [[30]]]
    v := [[[11]], [[21]], [[31]]]
    lon := none
    lat := none }

/-- Witness for C8 at a concrete dataset: times `[1, 2, 3]`, bounds `[2, 3]`,
probe `t = 2`. -/
theorem C8_slice_data_inclusive_defaults_witness :
    (wndEx.time ≠ []) ∧ wndEx.time.Pairwise (· ≤ ·) ∧
    (wndEx.u.length = wndEx.time.length) ∧
    (wndEx.v.length = wndEx.time.length) ∧
    (slice_data wndEx none none = wndEx ∧
    ((2 : Nat) ∈ (slice_data wndEx (some 2) (some 3)).time ↔
      (2 : Nat) ∈ wndEx.time ∧ 2 ≤ 2 ∧ 2 ≤ 3) ∧
    slice_data wndEx none (some 3) = sel_time wndEx (wndEx.time.headD 0) 3 ∧
    slice_data wndEx (some 2) none = sel_time wndEx 2 (wndEx.time.getLastD 0)) := by
  refine ⟨by decide, by decide, by decide, by decide, ?_⟩
  exact C8_slice_data_inclusive_defaults wndEx (by decide) (by decide)
    (by decide) (by decide) 2 3 2

/-- C10: when the imported dataset lacks a `lon` (resp. `lat`) coordinate the
accessor returns the empty array instead of raising; when the coordinate
exists it returns (a value-equal copy of) its values. -/
theorem C10_lon_lat_accessors (ds : WndData) (vlon vlat : List ℚ) :
    (ds.lon = none → forcing_lon ds = []) ∧
    (ds.lon = some vlon → forcing_lon ds = vlon) ∧
    (ds.lat = none → forcing_lat ds = []) ∧
    (ds.lat = some vlat → forcing_lat ds = vlat) := by
  refine ⟨?_, ?_, ?_, ?_⟩ <;> intro hcase <;>
    simp [forcing_lon, forcing_lat, hcase]

/-- Dataset for the C10 witness: no `lon` coordinate, `lat = [5, 6]`. -/
def wndEx10 : WndData :=
  { time := [], u := [], v := [], lon := none, lat := some [5, 6] }

/-- Witness for C10: a dataset with no `lon` coordinate and `lat = [5, 6]`. -/
theorem C10_lon_lat_accessors_witness :
    forcing_lon wndEx10 = [] ∧ forcing_lat wndEx10 = [5, 6] := by
  constructor
  · exact (C10_lon_lat_accessors wndEx10 [] [5, 6]).1 rfl
  · exact (C10_lon_lat_accessors wndEx10 [] [5, 6]).2.2.2 rfl

/-! ## The SWAN plain-text forcing writer of src/dnora/wnd/write.py -/

/-- The `Forcing` object state used by the writers: the requested time span
(`self.start_time`, `self.end_time`, as seconds) and the imported dataset. -/
structure Forcing where
  start_time : Nat
  end_time : Nat
  data : WndData
deriving DecidableEq, Repr

/-- Calendar day of a time value (day number; a time `t` in seconds falls on
day `t / 86400`). -/
def dayOf (t : Nat) : Nat := t / 86400

/-- Modelled from the spec: `day_list` from the missing `dnora/aux.py` — "a
Pandas date range of all the days in the time span", i.e. every calendar day
from the day of `start_time` through the day of `end_time`. -/
def day_list (start_time end_time : Nat) : List Nat :=
  (List.range (dayOf end_time + 1 - dayOf start_time)).map
    (fun k => dayOf start_time + k)

/-- `Forcing.times_in_day` (`src/dnora/wnd/wnd_mod.py` lines 188-195): slices
the dataset between `day`T00:00:00 and `day`T23:59:59 (86399 s into the day)
and returns its time stamps. -/
def times_in_day (f : Forcing) (day : Nat) : List Nat :=
  (slice_data f.data (some (86400 * day)) (some (86400 * day + 86399))).time

/-- Python `'%i' % (1000 * x)` applied to one exact value `x = q.num / q.den`:
`1000 * x = (1000 * q.num) / q.den`, and `'%i'` truncates the float toward
zero. -/
def scale1000 (q : ℚ) : Int := Int.tdiv (1000 * q.num) (Int.ofNat q.den)

/-- One savetxt row of `field * 1000` rendered with `fmt='%i'`. -/
def scaleRow (row : List ℚ) : List Int := row.map scale1000

/-- One line of the SWAN plain-text forcing file: either a timestamp line
(its time value, rendered as `%Y%m%d.%H%M%S` in the file) or a savetxt row
of integers. -/
inductive OutLine where
  | stamp : Nat → OutLine
  | row : List Int → OutLine
deriving DecidableEq, Repr

/-- Rendering of a savetxt row: integers separated by single spaces. -/
def rowStr (r : List Int) : String := String.intercalate " " (r.map toString)

/-- The loop body of `SWAN.__call__` for one `n` in `range(len(times))`:
timestamp of `times[n]`, the rows of `forcing.u()[n,:,:] * 1000` with
`fmt='%i'`, the repeated timestamp, the rows of `forcing.v()[n,:,:] * 1000`.
Note `n` indexes `u`/`v` on the global time axis. -/
def swan_day_block (f : Forcing) (times : List Nat) (n : Nat) : List OutLine :=
  [OutLine.stamp (times.getD n 0)]
    ++ (f.data.u.getD n []).map (fun row => OutLine.row (scaleRow row))
    ++ [OutLine.stamp (times.getD n 0)]
    ++ (f.data.v.getD n []).map (fun row => OutLine.row (scaleRow row))

/-- The full line sequence written by `SWAN.__call__` (`src/dnora/wnd/write.py`
lines 87-100): for each day of `forcing.days()` and each
`n in range(len(times))` with `times = forcing.times_in_day(day)`, the block
above.  `n` restarts from 0 on every day. -/
def swan_write (f : Forcing) : List OutLine :=
  (day_list f.start_time f.end_time).flatMap (fun day =>
    (List.range (times_in_day f day).length).flatMap
      (swan_day_block f (times_in_day f day)))

/-- Two-day forcing for C2: steps at 00:00 of day 0 and of day 1, 1×1 grids,
distinct u-fields (`[[1.0]]` then `[[2.0]]`) and v-fields per step. -/
def frc2day : Forcing :=
  { start_time := 0
    end_time := 86400
    data := { time := [0, 86400]
              u := [[[1]], [[2]]]
              v := [[[5]], [[6]]]
              lon := none
              lat := none } }

/-- Single-day, single-step forcing with the claim's 2×2 field
`u = [[1.0, 2.0], [3.0, 4.0]]`. -/
def frc1day : Forcing :=
  { start_time := 0
    end_time := 0
    data := { time := [0]
              u := [[[1, 2], [3, 4]]]
              v := [[[0, 0], [0, 0]]]
              lon := none
              lat := none } }

/-- C2 (code bug, evaluated at a failing input): for the single-step 2×2
forcing the writer does emit timestamp, u-rows `1000 2000` / `3000 4000`,
timestamp again, v-rows, with u before v.  But for the two-day forcing
`frc2day`, whose second time step (stamp 86400) has u-field `[[2.0]]` (scaled
`[[2000]]`), the writer emits the row `[1000]` — the first step's field —
under the second day's timestamp: `forcing.u()[n,:,:]` is indexed by the
position `n` within the day instead of by the global time index. -/
theorem C2_swan_writer_field_mismatch :
    swan_write frc1day =
      [OutLine.stamp 0, OutLine.row [1000, 2000], OutLine.row [3000, 4000],
        OutLine.stamp 0, OutLine.row [0, 0], OutLine.row [0, 0]] ∧
    rowStr [1000, 2000] = "1000 2000" ∧
    rowStr [3000, 4000] = "3000 4000" ∧
    swan_write frc2day =
      [OutLine.stamp 0, OutLine.row [1000], OutLine.stamp 0, OutLine.row [5000],
        OutLine.stamp 86400, OutLine.row [1000], OutLine.stamp 86400,
        OutLine.row [5000]] ∧
    (frc2day.data.u.getD 1 []).map scaleRow = [[2000]] := by
  refine ⟨by decide, by decide, by decide, by decide, by decide⟩

/-- C5 counterexample: the claim's own 2×2 single-timestamp example produces a
6-line day-block (timestamp, two u-rows, timestamp, two v-rows), not
`4k = 4` lines. -/
theorem C5_four_k_lines_counterexample :
    (swan_write frc1day).length = 6 ∧
    frc1day.data.time.length = 1 ∧
    ¬((swan_write frc1day).length = 4 * frc1day.data.time.length) := by
  refine ⟨by decide, by decide, by decide⟩

theorem swan_day_block_length (f : Forcing) (times : List Nat) (n : Nat) :
    (swan_day_block f times n).length =
      2 + (f.data.u.getD n []).length + (f.data.v.getD n []).length := by
  simp [swan_day_block]
  omega

/-- C5 (amended): for a forcing spanning exactly one day, whose `k` time steps
all fall on that day, and whose u- and v-fields each have `ny` rows, the SWAN
export contains exactly `k * (2 + 2 * ny)` lines — per time step one timestamp
line, `ny` u-rows, the repeated timestamp line and `ny` v-rows.  (This equals
`4k` only when the grid has a single latitude row.) -/
theorem C5_swan_line_count (f : Forcing) (k ny : Nat)
    (hday : dayOf f.start_time = dayOf f.end_time)
    (hk : f.data.time.length = k)
    (htimes : ∀ t ∈ f.data.time, dayOf t = dayOf f.start_time)
    (hu : ∀ n, n < k → (f.data.u.getD n []).length = ny)
    (hv : ∀ n, n < k → (f.data.v.getD n []).length = ny) :
    (swan_write f).length = k * (2 + 2 * ny) := by
  have hdl : day_list f.start_time f.end_time = [dayOf f.start_time] := by
    unfold day_list
    have h1 : dayOf f.end_time + 1 - dayOf f.start_time = 1 := by
      rw [← hday]
      omega
    rw [h1]
    rfl
  have hti : times_in_day f (dayOf f.start_time) = f.data.time := by
    unfold times_in_day slice_data sel_time
    simp only [Option.getD_some]
    apply List.filter_eq_self.mpr
    intro x hx
    have hd := htimes x hx
    unfold dayOf at hd
    have h1 : 86400 * dayOf f.start_time ≤ x := by unfold dayOf; omega
    have h2 : x ≤ 86400 * dayOf f.start_time + 86399 := by unfold dayOf; omega
    unfold inRange
    rw [decide_eq_true h1, decide_eq_true h2]
    rfl
  rw [swan_write, hdl]
  simp only [List.flatMap_cons, List.flatMap_nil, List.append_nil]
  rw [hti, hk, List.length_flatMap]
  have hmap : (List.range k).map (List.length ∘ swan_day_block f f.data.time) =
      List.replicate k (2 + 2 * ny) := by
    refine List.eq_replicate_iff.mpr ⟨by simp, ?_⟩
    intro b hb
    rcases List.mem_map.mp hb with ⟨n, hn, hbn⟩
    have hnk : n < k := List.mem_range.mp hn
    rw [← hbn]
    simp only [Function.comp_apply]
    rw [swan_day_block_length, hu n hnk, hv n hnk]
    omega
  rw [hmap, List.sum_replicate, smul_eq_mul]

/-- Witness for C5 at the concrete 2×2, single-step, single-day forcing:
`k = 1`, `ny = 2`, so the file has `1 * (2 + 2 * 2) = 6` lines. -/
theorem C5_swan_line_count_witness :
    (dayOf frc1day.start_time = dayOf frc1day.end_time) ∧
    (frc1day.data.time.length = 1) ∧
    (∀ t ∈ frc1day.data.time, dayOf t = dayOf frc1day.start_time) ∧
    (∀ n, n < 1 → (frc1day.data.u.getD n []).length = 2) ∧
    (∀ n, n < 1 → (frc1day.data.v.getD n []).length = 2) ∧
    (swan_write frc1day).length = 1 * (2 + 2 * 2) := by
  refine ⟨by decide, by decide, by decide, by decide, by decide, ?_⟩
  exact C5_swan_line_count frc1day 1 2 (by decide) (by decide) (by decide)
    (by decide) (by decide)

/-! ## Filename templating (src/dnora/wnd/wnd_mod.py lines 72-101)

The substitution helpers (`create_filename_obj`, `create_filename_time`,
`clean_filename`) and the placeholder list live in `dnora/aux.py` and
`dnora/defaults.py`, which are not part of the provided sources; they are
modelled from the spec ("a string template containing named placeholders
(object name, grid name, start/end date) substituted at export time;
unresolved placeholders are stripped").  The structure that decides claim C7
— `Forcing.filename` substitutes but never strips, `Forcing.folder` also
strips, and `export_forcing` uses `filename` for both the file name and the
folder — is in the provided `wnd_mod.py`. -/

/-- Replace every occurrence of the (non-empty) pattern `pat` by `rep`,
left-to-right without overlap (Python `str.replace`).  `fuel` bounds the
recursion; every step consumes at least one character, so `fuel = length of
the text` suffices. -/
def replaceFuel (pat rep : List Char) : Nat → List Char → List Char
  | 0, l => l
  | _ + 1, [] => []
  | fuel + 1, c :: rest =>
    if pat.isPrefixOf (c :: rest) then
      rep ++ replaceFuel pat rep fuel (rest.drop (pat.length - 1))
    else
      c :: replaceFuel pat rep fuel rest

/-- Python `s.replace(pat, rep)` on strings. -/
def replaceStr (s pat rep : String) : String :=
  { data := replaceFuel pat.data rep.data s.data.length s.data }

/-- Modelled from the spec: `create_filename_obj` from the missing
`dnora/aux.py` — substitutes each object-name placeholder (`$Forcing` by the
forcing's name, `$Grid` by the grid's name, in the order the objects are
passed). -/
def create_filename_obj (filestring : String)
    (objNames : List (String × String)) : String :=
  objNames.foldl (fun s pr => replaceStr s pr.1 pr.2) filestring

/-- Modelled from the spec: `create_filename_time` from the missing
`dnora/aux.py` — substitutes the start/end-date placeholders `$T0`, `$T1`;
the dates arrive here already rendered through the configured datestring. -/
def create_filename_time (filestring t0 t1 : String) : String :=
  replaceStr (replaceStr filestring "$T0" t0) "$T1" t1

/-- Modelled from the spec: `list_of_placeholders` from the missing
`dnora/defaults.py` — the named placeholders of the templating scheme
(object names and start/end dates). -/
def list_of_placeholders : List String :=
  ["$Grid", "$Forcing", "$Boundary", "$T0", "$T1"]

/-- Modelled from the spec: `clean_filename` from the missing `dnora/aux.py`
— strips every placeholder left unresolved from the name. -/
def clean_filename (filestring : String) (placeholders : List String) : String :=
  placeholders.foldl (fun s p => replaceStr s p "") filestring

/-- `Forcing.filename` (`src/dnora/wnd/wnd_mod.py` lines 72-93): substitutes
the object placeholders (`objects=[self, self.grid]`), then the time
placeholders.  It does not call `clean_filename`. -/
def forcing_filename (forcingName gridName t0 t1 filestring : String) : String :=
  create_filename_time
    (create_filename_obj filestring
      [("$Forcing", forcingName), ("$Grid", gridName)]) t0 t1

/-- `Forcing.folder` (`src/dnora/wnd/wnd_mod.py` lines 95-101): substitutes
the object placeholders (`objects=[self.grid, self]`), then the time
placeholders, then strips unresolved placeholders with `clean_filename`. -/
def forcing_folder (forcingName gridName t0 t1 folderstring : String) : String :=
  clean_filename
    (create_filename_time
      (create_filename_obj folderstring
        [("$Grid", gridName), ("$Forcing", forcingName)]) t0 t1)
    list_of_placeholders

/-- C7 counterexample: a file template with the unresolved placeholder
`$Boundary` keeps it after `Forcing.filename` — the name is not stripped
(stripping would have produced `wind_TestGrid`).  `export_forcing` builds both
the export file name and the export folder with `filename`, so neither is
stripped at export time. -/
theorem C7_unresolved_kept_in_filename :
    forcing_filename "WINDY" "TestGrid" "2020-01-01" "2020-01-02"
      "wind$Boundary_$Grid" = "wind$Boundary_TestGrid" ∧
    clean_filename "wind$Boundary_TestGrid" list_of_placeholders =
      "wind_TestGrid" ∧
    ("wind$Boundary_TestGrid" : String) ≠ "wind_TestGrid" := by
  refine ⟨by decide, by decide, by decide⟩

/-- C7 (amended): exporting substitutes the object-name, grid-name and
start/end-date placeholders into file and folder templates — on the spec's
own example, `$Grid_$T0_$T1` becomes `TestGrid_2020-01-01_2020-01-02` — but
unresolved placeholders are stripped only by `Forcing.folder`;
`Forcing.filename` leaves them in place. -/
theorem C7_templating_substitution :
    forcing_filename "WINDY" "TestGrid" "2020-01-01" "2020-01-02"
      "$Grid_$T0_$T1" = "TestGrid_2020-01-01_2020-01-02" ∧
    forcing_folder "WINDY" "TestGrid" "2020-01-01" "2020-01-02"
      "wind$Boundary_$Grid" = "wind_TestGrid" ∧
    forcing_filename "WINDY" "TestGrid" "2020-01-01" "2020-01-02"
      "wind$Boundary_$Grid" = "wind$Boundary_TestGrid" := by
  refine ⟨by decide, by decide, by decide⟩
